import Mathlib

/-!
Verification of the member-qa service (src/app/main.py).

Strings are modelled as lists of characters. The regular expressions of the
source are embedded as abstract syntax trees and executed by a backtracking
matcher that follows the semantics of the Python `re` module for the
constructs these patterns use: leftmost search, ordered alternation,
greedy and lazy repetition, capture groups, word boundaries, and the
global `(?i)` case-insensitivity flag (which in Python also makes character
classes such as `[A-Z]` match both cases).  Character classes are modelled
at ASCII fidelity.
-/

namespace MemberQA

abbrev Str := List Char

/-- Python `\s` (ASCII range: space, tab, newline, carriage return,
vertical tab, form feed). -/
def isSpaceCh (c : Char) : Bool :=
  c == ' ' || c == '\t' || c == '\n' || c == '\r' || c == Char.ofNat 11 || c == Char.ofNat 12

/-- Python `\w` (ASCII fidelity: letters, digits, underscore). -/
def isWordCh (c : Char) : Bool :=
  c.isAlphanum || c == '_'

/-- Python `\d` (ASCII digits). -/
def isDigitCh (c : Char) : Bool :=
  c.isDigit

/-- Letter class: `[A-Z]` or `[a-zA-Z]` under the `(?i)` flag, which makes
both classes match any ASCII letter. -/
def isAlphaCh (c : Char) : Bool :=
  c.isAlpha

/-- Class of letters, digits, space, comma, dot, slash and dash, used for
the `when` capture of the trip patterns. -/
def isWhenCh (c : Char) : Bool :=
  c.isAlpha || c.isDigit || c == ' ' || c == ',' || c == '.' || c == '/' || c == '-'

/-- The ASCII apostrophe character. -/
def apoC : Char := Char.ofNat 39

/-- Class `['’]` of FAV_Q_RE: ASCII apostrophe or right single quote U+2019. -/
def isApos (c : Char) : Bool :=
  c == apoC || c == Char.ofNat 8217

/-- Class `[\w'&]` used in the second favorites pattern. -/
def isNameCh (c : Char) : Bool :=
  isWordCh c || c == apoC || c == '&'

/-- Regular-expression abstract syntax: exactly the constructs occurring in
the source patterns.  `lit` is matched case-insensitively (all source
patterns carry the `(?i)` flag); `cls` holds a character predicate;
`star`/`opt` carry a greediness flag; `grp` is a numbered capture group;
`wb` is `\b` and `eos` is `$`. -/
inductive RE where
  | eps
  | cls (p : Char → Bool)
  | lit (cs : List Char)
  | seq (a b : RE)
  | alt (a b : RE)
  | star (greedy : Bool) (a : RE)
  | opt (greedy : Bool) (a : RE)
  | grp (n : Nat) (a : RE)
  | wb
  | eos

/-- Capture store: list of (group, start, stop), most recent first. -/
abbrev Caps := List (Nat × Nat × Nat)

/-- Look up the most recent span recorded for group `n`. -/
def capGet (caps : Caps) (n : Nat) : Option (Nat × Nat) :=
  match caps with
  | [] => none
  | (m, a, b) :: rest => if m == n then some (a, b) else capGet rest n

/-- Case-insensitive literal test at a position. -/
def litAt (s : Str) (pos : Nat) (cs : List Char) : Bool :=
  match cs with
  | [] => true
  | c :: rest =>
    match s.get? pos with
    | some d => if d.toLower == c.toLower then litAt s (pos + 1) rest else false
    | none => false

/-- Is the character at `pos` (if any) a word character? -/
def wordAt (s : Str) (pos : Nat) : Bool :=
  match s.get? pos with
  | some c => isWordCh c
  | none => false

/-- Word boundary `\b` at `pos`. -/
def atWb (s : Str) (pos : Nat) : Bool :=
  let before := match pos with
    | 0 => false
    | p + 1 => wordAt s p
  before != wordAt s pos

/-- End anchor `$` without MULTILINE: end of string, or just before a final
newline. -/
def atEos (s : Str) (pos : Nat) : Bool :=
  pos == s.length || (pos + 1 == s.length && s.get? pos == some '\n')

/-- A match: (start, stop, captures). -/
abbrev RMatch := Nat × Nat × Caps

/-- Backtracking matcher in continuation-passing style.  The continuation
receives the position and captures after the current node; the first
success in backtracking order is returned, mirroring the Python engine.
`fuel` bounds the unfolding depth and is chosen large enough by
`searchFuel` below.  A repetition whose body matched without consuming
input stops iterating, as in Python. -/
def reM (s : Str) : Nat → RE → Nat → Caps → (Nat → Caps → Option (Nat × Caps)) →
    Option (Nat × Caps)
  | 0, _, _, _, _ => none
  | fuel + 1, r, pos, caps, k =>
    match r with
    | .eps => k pos caps
    | .cls p =>
      match s.get? pos with
      | some c => if p c then k (pos + 1) caps else none
      | none => none
    | .lit cs => if litAt s pos cs then k (pos + cs.length) caps else none
    | .seq a b => reM s fuel a pos caps (fun p c => reM s fuel b p c k)
    | .alt a b =>
      match reM s fuel a pos caps k with
      | some res => some res
      | none => reM s fuel b pos caps k
    | .opt g a =>
      if g then
        match reM s fuel a pos caps k with
        | some res => some res
        | none => k pos caps
      else
        match k pos caps with
        | some res => some res
        | none => reM s fuel a pos caps k
    | .star g a =>
      let kk := fun p c => if pos < p then reM s fuel (.star g a) p c k else k p c
      if g then
        match reM s fuel a pos caps kk with
        | some res => some res
        | none => k pos caps
      else
        match k pos caps with
        | some res => some res
        | none => reM s fuel a pos caps kk
    | .grp n a => reM s fuel a pos caps (fun p c => k p ((n, pos, p) :: c))
    | .wb => if atWb s pos then k pos caps else none
    | .eos => if atEos s pos then k pos caps else none

/-- Syntactic size of a pattern, used to compute a sufficient fuel bound. -/
def reSize : RE → Nat
  | .eps => 1
  | .cls _ => 1
  | .lit cs => cs.length + 1
  | .seq a b => reSize a + reSize b + 1
  | .alt a b => reSize a + reSize b + 1
  | .star _ a => reSize a + 2
  | .opt _ a => reSize a + 2
  | .grp _ a => reSize a + 2
  | .wb => 1
  | .eos => 1

/-- Fuel bound: every repetition iteration consumes at least one character,
so the unfolding depth is below (size + length) * (length + 4). -/
def searchFuel (r : RE) (s : Str) : Nat :=
  (reSize r + s.length + 4) * (s.length + 4)

/-- Try a full-pattern match at positions `i, i+1, ...` (at most `tries`
starts), returning the leftmost match as Python `re.search` does. -/
def reSearchFrom (r : RE) (s : Str) : Nat → Nat → Option RMatch
  | 0, _ => none
  | tries + 1, i =>
    match reM s (searchFuel r s) r i [] (fun p c => some (p, c)) with
    | some (e, caps) => some (i, e, caps)
    | none => reSearchFrom r s tries (i + 1)

/-- Python `pattern.search(s)`. -/
def reSearch (r : RE) (s : Str) : Option RMatch :=
  reSearchFrom r s (s.length + 1) 0

/-- Substring `s[a:b]`. -/
def sliceStr (s : Str) (a b : Nat) : Str :=
  (s.drop a).take (b - a)

/-- Python `m.group(n)`, with a missing group read as the empty string
(the source always applies `or ""` to the groups it reads). -/
def groupStr (s : Str) (m : RMatch) (n : Nat) : Str :=
  match capGet m.2.2 n with
  | some (a, b) => sliceStr s a b
  | none => []

/-- Case-insensitive literal from a string literal. -/
def rstr (s : String) : RE := .lit s.data

/-- Sequence of a list of patterns. -/
def rcat (l : List RE) : RE := l.foldr RE.seq .eps

/-- Ordered alternation of a non-empty list of patterns. -/
def ralt1 (l : List RE) : RE :=
  match l with
  | [] => .cls (fun _ => false)
  | [r] => r
  | r :: rest => .alt r (ralt1 rest)

/-- Greedy `a+`. -/
def plusG (a : RE) : RE := .seq a (.star true a)

/-- Lazy `a+?`. -/
def plusL (a : RE) : RE := .seq a (.star false a)

/-- Greedy `\s*`. -/
def starS : RE := .star true (.cls isSpaceCh)

/-- Greedy `\s+`. -/
def plusS : RE := plusG (.cls isSpaceCh)

/-- Python `.` and `[^\n]`: any character except newline. -/
def anyCh : RE := .cls (fun c => c != '\n')

/-- Drop leading whitespace. -/
def stripLeadWs : Str → Str
  | [] => []
  | c :: rest => if isSpaceCh c then stripLeadWs rest else c :: rest

/-- Python `str.strip()` (ASCII whitespace fidelity). -/
def stripWs (s : Str) : Str :=
  (stripLeadWs (stripLeadWs s).reverse).reverse

/-- Drop leading characters belonging to a set. -/
def dropLeadSet (cs : List Char) : Str → Str
  | [] => []
  | c :: rest => if cs.contains c then dropLeadSet cs rest else c :: rest

/-- Python `str.strip(chars)`: both ends. -/
def stripSet (cs : List Char) (s : Str) : Str :=
  (dropLeadSet cs (dropLeadSet cs s).reverse).reverse

/-- Python `str.rstrip(chars)`: right end only. -/
def rstripSet (cs : List Char) (s : Str) : Str :=
  (dropLeadSet cs s.reverse).reverse

/-- Python `str.lower()` (ASCII fidelity). -/
def lowerStr (s : Str) : Str := s.map Char.toLower

/-- Collapse every whitespace run to a single space,
Python `re.sub(whitespace-run, single-space, s)`. -/
def collapseAux : Bool → Str → Str
  | _, [] => []
  | prevSp, c :: rest =>
    if isSpaceCh c then
      if prevSp then collapseAux true rest else ' ' :: collapseAux true rest
    else c :: collapseAux false rest

/-- Whitespace-run collapsing. -/
def collapseWs (s : Str) : Str := collapseAux false s

/-- Python `needle in hay` substring test. -/
def strHas : Str → Str → Bool
  | n, [] => n.isEmpty
  | n, c :: rest => n.isPrefixOf (c :: rest) || strHas n rest

/-- Python `int` on a digit string. -/
def digitsToNat (s : Str) : Nat :=
  s.foldl (fun n c => n * 10 + (c.toNat - 48)) 0

/-- Python `str(n)` for a natural number. -/
def natToStr (n : Nat) : Str := (Nat.repr n).data

/-- Python comma-space join of a list of strings. -/
def joinCS : List Str → Str
  | [] => []
  | [x] => x
  | x :: y :: rest => x ++ (", ".data) ++ joinCS (y :: rest)

/-! Source line 120: `NAME_NORM = lambda s: re.sub(r"\s+", " ", (s or "").strip().lower())`
and lines 151-152: `normalize_city`. -/

/-- Source `NAME_NORM`: strip, lower, collapse whitespace runs. -/
def NAME_NORM (s : Str) : Str := collapseWs (lowerStr (stripWs s))

/-- Source `normalize_city`: strip, collapse whitespace runs, lower. -/
def normalize_city (s : Str) : Str := lowerStr (collapseWs (stripWs s))

/-! The source regular expressions (src/app/main.py lines 114-146),
transcribed construct by construct.  Group numbering: in the three
question regexes group 1 is the person capture and group 2 the city;
in the message patterns the named groups are numbered city = 2,
when = 3, count = 4, list = 5, and incidental unnamed groups that the
source never reads are numbered 6 and 7. -/

/-- City run `[A-Z][a-zA-Z]+(?:\s+[A-Z][a-zA-Z]+)*`; under `(?i)` both
classes match any letter. -/
def cityRE : RE :=
  .seq (.seq (.cls isAlphaCh) (plusG (.cls isAlphaCh)))
    (.star true (.seq plusS (.seq (.cls isAlphaCh) (plusG (.cls isAlphaCh)))))

/-- Source TRIP_Q_RE (line 114). -/
def TRIP_Q_RE : RE := rcat [
  rstr "when", plusS, rstr "is", plusS,
  .grp 1 (plusL anyCh), plusS,
  rstr "planning", plusS,
  .opt true (ralt1 [rstr "her", rstr "his", rstr "their"]), starS,
  rstr "trip", plusS, rstr "to", plusS,
  .grp 2 cityRE,
  starS, .opt true (rstr "?"), starS, .eos ]

/-- Source CARS_Q_RE (line 117). -/
def CARS_Q_RE : RE := rcat [
  rstr "how", plusS, rstr "many", plusS, rstr "cars", plusS, rstr "does", plusS,
  .grp 1 (plusL anyCh), plusS, rstr "have", .opt true (rstr "?") ]

/-- Source FAV_Q_RE (line 118). -/
def FAV_Q_RE : RE := rcat [
  rstr "what", plusS, rstr "are", plusS,
  .grp 1 (plusL anyCh), .cls isApos, rstr "s", plusS,
  rstr "favorite", plusS, rstr "restaurants", .opt true (rstr "?") ]

/-- Source DATE_WORDS alternation (line 121). -/
def dateWordsRE : RE := ralt1 [
  rstr "on", rstr "around", rstr "in", rstr "by",
  rstr "this", rstr "next", rstr "coming", rstr "on the" ]

/-- First trip pattern (lines 124-126). -/
def tripP1 : RE := rcat [
  .wb, .grp 6 (ralt1 [rstr "trip", rstr "travel", rstr "fly", rstr "flight", rstr "going"]), .wb,
  .star true anyCh, .wb, rstr "to", .wb, starS,
  .grp 2 cityRE,
  .star true anyCh, .wb, dateWordsRE, .wb, starS,
  .grp 3 (plusG (.cls isWhenCh)) ]

/-- Second trip pattern (lines 127-129). -/
def tripP2 : RE := rcat [
  .wb, rstr "to", plusS, .grp 2 cityRE, .wb,
  .star true anyCh, .wb,
  .grp 7 (ralt1 [rstr "on", rstr "around", rstr "in", rstr "by"]), .wb, starS,
  .grp 3 (plusG (.cls isWhenCh)) ]

/-- Third trip pattern (lines 131-133). -/
def tripP3 : RE := rcat [
  .wb, ralt1 [rstr "to", rstr "headed to", rstr "off to"], plusS, .grp 2 cityRE, .wb,
  .star false anyCh, .wb, dateWordsRE, .wb, starS,
  .grp 3 (plusG (.cls isWhenCh)) ]

/-- Source TRIP_PATTERNS (lines 123-134). -/
def TRIP_PATTERNS : List RE := [tripP1, tripP2, tripP3]

/-- First cars pattern (line 137). -/
def carsP1 : RE := rcat [
  .wb, .grp 4 (plusG (.cls isDigitCh)), plusS,
  rstr "car", .opt true (rstr "s"), .wb ]

/-- Second cars pattern (line 138). -/
def carsP2 : RE := rcat [
  .wb, .grp 6 (ralt1 [rstr "has", .seq (rstr "own") (.opt true (rstr "s"))]), .wb,
  .star true anyCh, .wb, .grp 4 (plusG (.cls isDigitCh)), plusS,
  rstr "car", .opt true (rstr "s"), .wb ]

/-- Source CARS_PATTERNS (lines 136-139). -/
def CARS_PATTERNS : List RE := [carsP1, carsP2]

/-- Capitalized-ish word of the second favorites pattern:
`[A-Z][\w'&]+` under `(?i)`. -/
def nameWord : RE := .seq (.cls isAlphaCh) (plusG (.cls isNameCh))

/-- Run of such words separated by whitespace. -/
def nameRun : RE := .seq nameWord (.star true (.seq plusS nameWord))

/-- First favorites pattern (line 142). -/
def favP1 : RE := rcat [
  rstr "favorite", plusS, rstr "restaurant", .opt true (rstr "s"), starS,
  .opt true (rstr ":"), starS, .grp 5 (plusG anyCh), .eos ]

/-- Second favorites pattern (lines 143-145). -/
def favP2 : RE := rcat [
  .wb, .grp 6 (ralt1 [rstr "love", rstr "loves", rstr "like", rstr "likes"]), plusS,
  .grp 5 (.seq nameRun (.star true (rcat [
    starS, rstr ",", starS, .opt true (.seq (rstr "and") plusS), nameRun ]))) ]

/-- Source FAV_PATTERNS (lines 141-146). -/
def FAV_PATTERNS : List RE := [favP1, favP2]

/-- Separator of `re.split` in `extract_favorite_restaurants` (line 199):
a comma with optional surrounding whitespace, or the word "and" with
mandatory surrounding whitespace. -/
def splitRE : RE :=
  .alt (rcat [starS, rstr ",", starS]) (rcat [plusS, rstr "and", plusS])

/-- Python `re.split`: cut the string at each non-overlapping leftmost
match, scanning on from the end of each match. -/
def reSplitFrom (r : RE) (s : Str) : Nat → Nat → List Str
  | 0, i => [s.drop i]
  | tries + 1, i =>
    match reSearchFrom r s (s.length + 1 - i) i with
    | some (st, en, _) =>
      if i < en then sliceStr s i st :: reSplitFrom r s tries en
      else [s.drop i]
    | none => [s.drop i]

/-- Python `re.split(r, s)` (our separators never match empty). -/
def reSplit (r : RE) (s : Str) : List Str := reSplitFrom r s (s.length + 1) 0

/-- Non-overlapping matches in order, Python `re.finditer` (advancing one
position past an empty match). -/
def reFindAllFrom (r : RE) (s : Str) : Nat → Nat → List RMatch
  | 0, _ => []
  | tries + 1, i =>
    match reSearchFrom r s (s.length + 1 - i) i with
    | some (st, en, caps) =>
      (st, en, caps) :: reFindAllFrom r s tries (if st < en then en else en + 1)
    | none => []

/-- Python `list(re.finditer(r, s))`. -/
def reFindAll (r : RE) (s : Str) : List RMatch := reFindAllFrom r s (s.length + 2) 0

/-! Data model (spec section 3): a message record whose fields may be
absent; the source reads them with `m.get(...) or ""`. -/

/-- One upstream message. -/
structure Message where
  user_name : Option Str
  message : Option Str
deriving DecidableEq

/-- Source `messages_for_user` inner loop, with the normalized query
precomputed as in the source. -/
def msgsForAux (target : Str) : List Message → List Str
  | [] => []
  | m :: rest =>
    let tail := msgsForAux target rest
    if strHas target (NAME_NORM (m.user_name.getD [])) then
      let msg := m.message.getD []
      if (stripWs msg).isEmpty then tail else msg :: tail
    else tail

/-- Source `messages_for_user` (lines 154-163). -/
def messages_for_user (all_msgs : List Message) (name_query : Str) : List Str :=
  msgsForAux (NAME_NORM name_query) all_msgs

/-- One pattern attempt of `extract_trip_when_to_city`: reject a match
whose captured city does not normalize-equal the target, return the
stripped `when` capture if non-empty. -/
def tripTryPat (cityNorm : Str) (t : Str) (pat : RE) : Option Str :=
  match reSearch pat t with
  | none => none
  | some m =>
    let det_city := stripWs (groupStr t m 2)
    let whenS := stripWs (groupStr t m 3)
    if !det_city.isEmpty && normalize_city det_city != cityNorm then none
    else if !whenS.isEmpty then some whenS
    else none

/-- Per-message trip scan: the three patterns in order. -/
def tripFromText (cityNorm : Str) (t : Str) : Option Str :=
  TRIP_PATTERNS.findSome? (tripTryPat cityNorm t)

/-- Source `extract_trip_when_to_city` (lines 165-178). -/
def extract_trip_when_to_city (texts : List Str) (city : Str) : Option Str :=
  texts.findSome? (tripFromText (normalize_city city))

/-- First-match car count of one pattern on one message, `int(m.group("count"))`. -/
def carCountOf (t : Str) (pat : RE) : Option Nat :=
  (reSearch pat t).map (fun m => digitsToNat (groupStr t m 4))

/-- The running-best update of `extract_car_count`:
`best = c if best is None or c > best else best`. -/
def carBestStep (b : Option Nat) (c : Nat) : Option Nat :=
  match b with
  | none => some c
  | some b0 => some (if b0 < c then c else b0)

/-- Inner-loop body of `extract_car_count`: fold one pattern into the
running best, leaving it unchanged when the pattern does not match. -/
def carPatStep (t : Str) (b2 : Option Nat) (pat : RE) : Option Nat :=
  match carCountOf t pat with
  | some c => carBestStep b2 c
  | none => b2

/-- Outer-loop body of `extract_car_count`: fold both patterns of one
message into the running best. -/
def carTextStep (b : Option Nat) (t : Str) : Option Nat :=
  CARS_PATTERNS.foldl (carPatStep t) b

/-- Source `extract_car_count` (lines 180-191). -/
def extract_car_count (texts : List Str) : Option Str :=
  (texts.foldl carTextStep none).map natToStr

/-- De-duplication loop of `extract_favorite_restaurants`: keep the first
occurrence of each case-insensitive key. -/
def favDedup (seen : List Str) : List Str → List Str
  | [] => []
  | i :: rest =>
    let k := lowerStr i
    if seen.contains k then favDedup seen rest
    else i :: favDedup (k :: seen) rest

/-- List post-processing of `extract_favorite_restaurants` (lines 199-207):
split, filter out whitespace-only items, strip each item, de-duplicate,
join with ", ". -/
def favProcess (raw : Str) : Str :=
  let pieces := reSplit splitRE raw
  let items := (pieces.filter (fun i => !(stripWs i).isEmpty)).map
    (fun i => stripSet ['.', ' '] (stripWs i))
  joinCS (favDedup [] items)

/-- Per-message favorites scan: the two patterns in order. -/
def favFromText (t : Str) : Option Str :=
  FAV_PATTERNS.findSome? (fun pat =>
    (reSearch pat t).map (fun m => favProcess (groupStr t m 5)))

/-- Source `extract_favorite_restaurants` (lines 193-208). -/
def extract_favorite_restaurants (texts : List Str) : Option Str :=
  texts.findSome? favFromText

/-! The answer boundary `ask` (lines 213-269).  The three intent regexes
are tried in order against the stripped question; the retrieval outcome is
modelled as an explicit parameter covering the four `try/except` arms of
the source. -/

/-- Classified question shape, with the captured person (and city)
already cleaned as in the source: `strip()` then `rstrip("?.!,")`. -/
inductive Intent where
  | trip (name city : Str)
  | cars (name : Str)
  | fav (name : Str)
  | unknown
deriving DecidableEq

/-- The punctuation stripped from captured names and cities. -/
def PUNCT : List Char := ['?', '.', '!', ',']

/-- Source cleanup of a captured group: `.strip().rstrip("?.!,")`. -/
def cleanCap (s : Str) : Str := rstripSet PUNCT (stripWs s)

/-- Intent dispatch of `ask` (lines 237-266): TRIP_Q_RE, then CARS_Q_RE,
then FAV_Q_RE; the first match wins. -/
def intentOf (q : Str) : Intent :=
  match reSearch TRIP_Q_RE q with
  | some m => .trip (cleanCap (groupStr q m 1)) (cleanCap (groupStr q m 2))
  | none =>
    match reSearch CARS_Q_RE q with
    | some m => .cars (cleanCap (groupStr q m 1))
    | none =>
      match reSearch FAV_Q_RE q with
      | some m => .fav (cleanCap (groupStr q m 1))
      | none => .unknown

/-- Outcome of `fetch_all_messages()` as observed by `ask`: the retrieved
messages, an `httpx.HTTPStatusError` (status code and body text), an
`httpx.RequestError` (its message), or any other exception. -/
inductive FetchOutcome where
  | ok (msgs : List Message)
  | failStatus (code : Nat) (body : Str)
  | failRequest (err : Str)
  | failOther
deriving DecidableEq

/-- What the boundary produces: an answer payload, or the one true
rejection, `HTTPException(status, detail)`. -/
inductive AskResult where
  | answer (a : Str)
  | clientError (status : Nat) (detail : Str)
deriving DecidableEq

/-- Python `x or fallback` on an optional string: `None` and the empty
string both fall back. -/
def orFallback (o : Option Str) (fb : Str) : Str :=
  match o with
  | some s => if s.isEmpty then fb else s
  | none => fb

/-- Answer `I couldn't find any messages for {name}.`. -/
def noMsgsAnswer (name : Str) : Str :=
  "I couldn".data ++ [apoC] ++ "t find any messages for ".data ++ name ++ ".".data

/-- Answer `No trip to {city} found for {name}.`. -/
def noTripAnswer (city name : Str) : Str :=
  "No trip to ".data ++ city ++ " found for ".data ++ name ++ ".".data

/-- Answer `I couldn't infer car ownership for {name}.`. -/
def noCarsAnswer (name : Str) : Str :=
  "I couldn".data ++ [apoC] ++ "t infer car ownership for ".data ++ name ++ ".".data

/-- Answer `No favorite restaurants found for {name}.`. -/
def noFavAnswer (name : Str) : Str :=
  "No favorite restaurants found for ".data ++ name ++ ".".data

/-- The fixed fallback guidance string (line 269). -/
def fallbackAnswer : Str :=
  "I couldn".data ++ [apoC] ++
    "t understand the question. Ask about trips to a city, car counts, or favorite restaurants.".data

/-- Upstream status failure answer (line 229), with the body snippet
truncated to 300 characters and an empty snippet rendered `no details`. -/
def statusAnswer (code : Nat) (body : Str) : Str :=
  let b := body.take 300
  "Upstream API error (".data ++ natToStr code ++ "): ".data ++
    (if b.isEmpty then "no details".data else b)

/-- Source `ask` (lines 213-269). -/
def ask (question : Str) (fetch : FetchOutcome) : AskResult :=
  let q := stripWs question
  if q.isEmpty then .clientError 400 ("Question must not be empty".data)
  else
    match fetch with
    | .failStatus code body => .answer (statusAnswer code body)
    | .failRequest err =>
      .answer ("Upstream API request failed (network/timeout): ".data ++ err)
    | .failOther => .answer ("Unexpected error fetching messages. Please try again.".data)
    | .ok msgs =>
      match intentOf q with
      | .trip name city =>
        let texts := messages_for_user msgs name
        if texts.isEmpty then .answer (noMsgsAnswer name)
        else .answer (orFallback (extract_trip_when_to_city texts city) (noTripAnswer city name))
      | .cars name =>
        let texts := messages_for_user msgs name
        if texts.isEmpty then .answer (noMsgsAnswer name)
        else .answer (orFallback (extract_car_count texts) (noCarsAnswer name))
      | .fav name =>
        let texts := messages_for_user msgs name
        if texts.isEmpty then .answer (noMsgsAnswer name)
        else .answer (orFallback (extract_favorite_restaurants texts) (noFavAnswer name))
      | .unknown => .answer fallbackAnswer

/-! The message-source client `fetch_messages_page` (lines 50-93).  The
network behavior is modelled as the list of outcomes of the successive
scheme-and-header-profile attempts in the order the two nested loops try
them (2 bases times 3 header profiles in the source). -/

/-- One attempt outcome: an HTTP response (status, items payload, body
text), or an exception raised during the request, flagged with whether it
is an `httpx.HTTPError`. -/
inductive Att where
  | resp (status : Nat) (items : List Message) (body : Str)
  | exc (isHttp : Bool)
deriving DecidableEq

/-- The `last_exc` variable: nothing yet, a recorded
`httpx.HTTPStatusError` raised by `raise_for_status`, or a recorded
request exception. -/
inductive LastExc where
  | noExc
  | statusErr (code : Nat) (body : Str)
  | reqExc (isHttp : Bool)
deriving DecidableEq

/-- What `fetch_messages_page` does in the end: return a payload, or
raise — the recorded `HTTPStatusError`, the recorded other
`httpx.HTTPError`, or a fresh generic `httpx.RequestError`. -/
inductive PageResult where
  | success (items : List Message)
  | raisedStatus (code : Nat) (body : Str)
  | raisedHttp
  | raisedGeneric
deriving DecidableEq

/-- The attempt loop of `fetch_messages_page`: a response with status
below 400 returns its payload; a 400 or 401 moves on without touching
`last_exc`; any other failure status raises `HTTPStatusError`, which the
blanket `except` records before moving on; a request exception is likewise
recorded; after the last attempt the recorded error (or a generic one) is
raised. -/
def pageAttempts : List Att → LastExc → PageResult
  | [], last =>
    match last with
    | .statusErr c b => .raisedStatus c b
    | .reqExc true => .raisedHttp
    | _ => .raisedGeneric
  | a :: rest, last =>
    match a with
    | .exc h => pageAttempts rest (.reqExc h)
    | .resp st items body =>
      if 400 ≤ st then
        if st == 400 || st == 401 then pageAttempts rest last
        else pageAttempts rest (.statusErr st body)
      else .success items

/-- Source `fetch_messages_page` (lines 64-93) over the attempt outcomes. -/
def fetch_messages_page (attempts : List Att) : PageResult :=
  pageAttempts attempts .noExc

/-- The first attempt whose response status is below 400, with its payload. -/
def firstOkAttempt (attempts : List Att) : Option (List Message) :=
  attempts.findSome? (fun a =>
    match a with
    | .resp st items _ => if st < 400 then some items else none
    | .exc _ => none)

/-! The collection fetcher `fetch_all_messages` (lines 95-108), over an
oracle mapping each `skip` offset to the `items` list of that page. -/

/-- Accumulated items and the number of page fetches performed. -/
structure FetchAllRes where
  items : List Message
  fetches : Nat
deriving DecidableEq

/-- The pagination loop: at most the given number of iterations; an empty
batch stops without accumulating; a batch shorter than the page size is
accumulated and then stops; otherwise advance `skip` by the page size. -/
def fetchAllAux (oracle : Nat → List Message) (pageSize : Nat) :
    Nat → Nat → List Message → FetchAllRes
  | 0, _, acc => ⟨acc, 0⟩
  | n + 1, skip, acc =>
    let batch := oracle skip
    if batch.isEmpty then ⟨acc, 1⟩
    else if batch.length < pageSize then ⟨acc ++ batch, 1⟩
    else
      let r := fetchAllAux oracle pageSize n (skip + pageSize) (acc ++ batch)
      ⟨r.items, r.fetches + 1⟩

/-- Source `fetch_all_messages` (lines 95-108). -/
def fetch_all_messages (oracle : Nat → List Message) (pageSize maxPages : Nat) :
    FetchAllRes :=
  fetchAllAux oracle pageSize maxPages 0 []

/-! Definitions that follow the words of the spec rather than the source,
for comparison with the source behavior. -/

/-- Maximum of a list of naturals via the running-best update, `None` on
the empty list. -/
def maxN? (l : List Nat) : Option Nat := l.foldl carBestStep none

/-- The candidate counts the source actually collects: the first match of
each cars pattern within each message. -/
def carCandidates (texts : List Str) : List Nat :=
  (texts.map (fun t => CARS_PATTERNS.filterMap (carCountOf t))).flatten

/-- Modelled from the spec: `Every match across every message and every
pattern contributes a candidate integer; the extractor returns the
maximum observed count across all candidates` — every match, via
`finditer`, rather than the single `search` match per pattern that the
source takes. -/
def extract_car_count_every_match (texts : List Str) : Option Str :=
  let cands := (texts.map (fun t => (CARS_PATTERNS.map (fun pat =>
    (reFindAll pat t).map (fun m => digitsToNat (groupStr t m 4)))).flatten)).flatten
  (maxN? cands).map natToStr

/-! Concrete inputs used by the example conjuncts, witnesses and
counterexamples below. -/

/-- Message `has 2 cars`. -/
def carsHasMsg : Str := "has 2 cars".data

/-- Message `owns 5 cars`. -/
def carsOwnsMsg : Str := "owns 5 cars".data

/-- Message `I have 2 cars and 7 cars`: two matches of the first cars
pattern, of which `search` only sees the first. -/
def carsCexMsg : Str := "I have 2 cars and 7 cars".data

/-- Message whose captured favorites list is the Oxford-comma list of the
claim, `Luigi's, Pancho's, and Luigi's`. -/
def oxfordMsg : Str :=
  "My favorite restaurants: Luigi".data ++ [apoC] ++ "s, Pancho".data ++ [apoC] ++
    "s, and Luigi".data ++ [apoC] ++ "s".data

/-- What the source produces from the Oxford-comma list:
`Luigi's, Pancho's, and Luigi's`. -/
def oxfordOut : Str :=
  "Luigi".data ++ [apoC] ++ "s, Pancho".data ++ [apoC] ++ "s, and Luigi".data ++
    [apoC] ++ "s".data

/-- The output the claim expects, `Luigi's, Pancho's`. -/
def dedupOut : Str :=
  "Luigi".data ++ [apoC] ++ "s, Pancho".data ++ [apoC] ++ "s".data

/-- The same favorites list without the Oxford comma,
`... Luigi's and Pancho's and Luigi's`. -/
def plainAndMsg : Str :=
  "My favorite restaurants: Luigi".data ++ [apoC] ++ "s and Pancho".data ++ [apoC] ++
    "s and Luigi".data ++ [apoC] ++ "s".data

/-- Message `trip to Paris on June 3` of the trip-extractor claim. -/
def parisMsg : Str := "trip to Paris on June 3".data

/-- A question satisfying both the favorites and the cars intent pattern:
`what are Al's favorite restaurants how many cars does Al have`. -/
def qOverlap : Str :=
  "what are Al".data ++ [apoC] ++ "s favorite restaurants how many cars does Al have".data

/-- The unparseable question of the fallback claim, `What's the weather?`. -/
def weatherQ : Str := "What".data ++ [apoC] ++ "s the weather?".data

/-- The question `How many cars does ? have`, whose captured name strips
to the empty string. -/
def qMark : Str := "How many cars does ? have".data

/-- A message from John Smith with non-blank text. -/
def johnMsg : Message := ⟨some "John Smith".data, some "hello there".data⟩

/-- A message from John Smith whose text is whitespace-only. -/
def blankMsg : Message := ⟨some "John Smith".data, some "   ".data⟩

/-- A message with no user name. -/
def noNameMsg : Message := ⟨none, some "anon text".data⟩

/-! General helper lemmas. -/

/-- First-success characterization of `List.findSome?`: if entry `i`
produces `some w` and every earlier entry produces `none`, the scan
returns `some w`. -/
theorem findSome?_first {α β : Type} (f : α → Option β) (l : List α) :
    ∀ (i : Nat) (hi : i < l.length) (w : β),
      f (l.get ⟨i, hi⟩) = some w →
      (∀ j (hj : j < i), f (l.get ⟨j, Nat.lt_trans hj hi⟩) = none) →
      l.findSome? f = some w := by
  induction l with
  | nil => intro i hi; exact absurd hi (Nat.not_lt_zero i)
  | cons a t ih =>
    intro i hi w hw hnone
    cases i with
    | zero =>
      have ha : f a = some w := hw
      simp [List.findSome?_cons, ha]
    | succ i' =>
      have h0 : f a = none := hnone 0 (Nat.succ_pos i')
      have ht := ih i' (Nat.lt_of_succ_lt_succ hi) w hw
        (fun j hj => hnone (j + 1) (Nat.succ_lt_succ hj))
      simp [List.findSome?_cons, h0, ht]

/-- Folding the running-best update from `some b` yields the maximum of
`b` and the list. -/
theorem foldl_carBest_spec :
    ∀ (l : List Nat) (b : Nat),
      ∃ m, l.foldl carBestStep (some b) = some m ∧ (m = b ∨ m ∈ l) ∧ b ≤ m ∧
        ∀ x ∈ l, x ≤ m := by
  intro l
  induction l with
  | nil => exact fun b => ⟨b, rfl, Or.inl rfl, Nat.le_refl b, by simp⟩
  | cons a t ih =>
    intro b
    obtain ⟨m, hm, hmem, hle, hub⟩ := ih (if b < a then a else b)
    refine ⟨m, ?_, ?_, ?_, ?_⟩
    · simpa [List.foldl_cons, carBestStep] using hm
    · rcases hmem with h | h
      · by_cases hba : b < a
        · simp [hba] at h; exact Or.inr (by simp [h])
        · simp [hba] at h; exact Or.inl h
      · exact Or.inr (List.mem_cons_of_mem a h)
    · refine Nat.le_trans ?_ hle
      by_cases hba : b < a
      · simp [hba]; omega
      · simp [hba]
    · intro x hx
      rcases List.mem_cons.mp hx with h | h
      · refine Nat.le_trans ?_ hle
        rw [h]
        by_cases hba : b < a
        · simp [hba]
        · simp [hba]; omega
      · exact hub x h

/-- The maximum of a non-empty candidate list belongs to the list and
bounds every element. -/
theorem maxN?_spec (l : List Nat) (m : Nat) (h : maxN? l = some m) :
    m ∈ l ∧ ∀ x ∈ l, x ≤ m := by
  cases l with
  | nil => simp [maxN?] at h
  | cons a t =>
    obtain ⟨m', hm', hmem, hle, hub⟩ := foldl_carBest_spec t a
    have : maxN? (a :: t) = some m' := by
      simpa [maxN?, List.foldl_cons, carBestStep] using hm'
    rw [this] at h
    cases h
    constructor
    · rcases hmem with h | h
      · exact h ▸ List.mem_cons_self a t
      · exact List.mem_cons_of_mem a h
    · intro x hx
      rcases List.mem_cons.mp hx with h | h
      · exact h ▸ hle
      · exact hub x h

/-- `maxN?` is `none` exactly on the empty list. -/
theorem maxN?_eq_none_iff (l : List Nat) : maxN? l = none ↔ l = [] := by
  cases l with
  | nil => simp [maxN?]
  | cons a t =>
    obtain ⟨m', hm', _, _, _⟩ := foldl_carBest_spec t a
    simp [maxN?, List.foldl_cons, carBestStep, hm']

/-- The inner pattern fold of the cars extractor equals folding the
per-pattern candidates. -/
theorem carTextStep_eq (t : Str) (b : Option Nat) :
    carTextStep b t = (CARS_PATTERNS.filterMap (carCountOf t)).foldl carBestStep b := by
  cases h1 : carCountOf t carsP1 <;> cases h2 : carCountOf t carsP2 <;>
    simp [carTextStep, CARS_PATTERNS, carPatStep, h1, h2]

/-- The nested fold of the cars extractor equals folding the flattened
candidate list. -/
theorem carFold_eq :
    ∀ (texts : List Str) (b : Option Nat),
      texts.foldl carTextStep b = (carCandidates texts).foldl carBestStep b := by
  intro texts
  induction texts with
  | nil => intro b; simp [carCandidates]
  | cons t rest ih =>
    intro b
    simp only [List.foldl_cons, carCandidates, List.map_cons, List.flatten_cons,
      List.foldl_append]
    rw [carTextStep_eq]
    exact ih _

/-- The message filter is the filter-then-project of the containment
predicate, over any precomputed target. -/
theorem msgsForAux_eq (target : Str) :
    ∀ (msgs : List Message),
      msgsForAux target msgs =
        (msgs.filter (fun m => strHas target (NAME_NORM (m.user_name.getD []))
          && !(stripWs (m.message.getD [])).isEmpty)).map (fun m => m.message.getD []) := by
  intro msgs
  induction msgs with
  | nil => rfl
  | cons m rest ih =>
    cases h1 : strHas target (NAME_NORM (m.user_name.getD [])) <;>
      cases h2 : (stripWs (m.message.getD [])).isEmpty <;>
        simp [msgsForAux, List.filter_cons, h1, h2, ih]

/-- The de-duplication loop keeps an order-preserving selection of its
input. -/
theorem favDedup_sublist : ∀ (l seen : List Str), (favDedup seen l).Sublist l := by
  intro l
  induction l with
  | nil => intro seen; simp [favDedup]
  | cons i rest ih =>
    intro seen
    by_cases h : lowerStr i ∈ seen
    · simpa [favDedup, h] using (ih seen).cons i
    · simpa [favDedup, h] using (ih (lowerStr i :: seen)).cons₂ i

/-- The keys of the de-duplicated list avoid the seen set and are
pairwise distinct. -/
theorem favDedup_keys :
    ∀ (l seen : List Str),
      (∀ k, k ∈ (favDedup seen l).map lowerStr → k ∉ seen) ∧
        ((favDedup seen l).map lowerStr).Nodup := by
  intro l
  induction l with
  | nil => intro seen; simp [favDedup]
  | cons i rest ih =>
    intro seen
    by_cases h : lowerStr i ∈ seen
    · simpa [favDedup, h] using ih seen
    · obtain ⟨ihAvoid, ihNodup⟩ := ih (lowerStr i :: seen)
      have hc : favDedup seen (i :: rest) = i :: favDedup (lowerStr i :: seen) rest := by
        simp [favDedup, h]
      rw [hc]
      constructor
      · intro k hk
        simp only [List.map_cons, List.mem_cons] at hk
        rcases hk with hk | hk
        · rw [hk]; exact h
        · have := ihAvoid k hk
          simp only [List.mem_cons] at this
          exact fun hs => this (Or.inr hs)
      · simp only [List.map_cons, List.nodup_cons]
        exact ⟨fun hmem => (ihAvoid (lowerStr i) hmem) (List.mem_cons_self _ _), ihNodup⟩

/-- The pagination loop performs at most its iteration budget in fetches. -/
theorem fetchAllAux_fetches_le (oracle : Nat → List Message) (ps : Nat) :
    ∀ (n skip : Nat) (acc : List Message),
      (fetchAllAux oracle ps n skip acc).fetches ≤ n := by
  intro n
  induction n with
  | zero => intro skip acc; exact Nat.le_refl 0
  | succ n ih =>
    intro skip acc
    by_cases h1 : (oracle skip).isEmpty
    · simp [fetchAllAux, h1]
    · by_cases h2 : (oracle skip).length < ps
      · simp [fetchAllAux, h1, h2]
      · simpa [fetchAllAux, h1, h2] using ih (skip + ps) (acc ++ oracle skip)

/-- If some attempt responds with a status below 400, the loop returns
that first success no matter what is recorded so far. -/
theorem pageAttempts_firstOk :
    ∀ (attempts : List Att) (last : LastExc) (items : List Message),
      firstOkAttempt attempts = some items →
      pageAttempts attempts last = .success items := by
  intro attempts
  induction attempts with
  | nil => intro last items h; simp [firstOkAttempt] at h
  | cons a rest ih =>
    intro last items h
    cases a with
    | exc hh =>
      simp only [firstOkAttempt, List.findSome?_cons] at h
      exact ih _ items (by simpa [firstOkAttempt] using h)
    | resp st its body =>
      by_cases hst : st < 400
      · have : items = its := by
          simp [firstOkAttempt, List.findSome?_cons, hst] at h
          exact h.symm
        subst this
        simp [pageAttempts, Nat.not_le.mpr hst]
      · have h' : firstOkAttempt rest = some items := by
          simpa [firstOkAttempt, List.findSome?_cons, hst] using h
        have h400 : 400 ≤ st := Nat.not_lt.mp hst
        by_cases h41 : st == 400 || st == 401
        · simpa [pageAttempts, h400, h41] using ih last items h'
        · simpa [pageAttempts, h400, h41] using ih (.statusErr st body) items h'

/-- The recorded-error update of one attempt, as the blanket handler
leaves it: request exceptions replace it, a 400 or 401 response leaves it
untouched, any other failure response replaces it with a status error. -/
def recordExc (last : LastExc) (a : Att) : LastExc :=
  match a with
  | .exc h => .reqExc h
  | .resp st _ body =>
    if 400 ≤ st then
      if st == 400 || st == 401 then last else .statusErr st body
    else last

/-- What the source raises once every attempt has failed. -/
def raisedOf : LastExc → PageResult
  | .statusErr c b => .raisedStatus c b
  | .reqExc true => .raisedHttp
  | .reqExc false => .raisedGeneric
  | .noExc => .raisedGeneric

/-- When no attempt succeeds, the loop raises the error recorded by
folding the attempts. -/
theorem pageAttempts_allFail :
    ∀ (attempts : List Att) (last : LastExc),
      firstOkAttempt attempts = none →
      pageAttempts attempts last = raisedOf (attempts.foldl recordExc last) := by
  intro attempts
  induction attempts with
  | nil =>
    intro last _
    cases last with
    | noExc => rfl
    | statusErr c b => rfl
    | reqExc b => cases b <;> rfl
  | cons a rest ih =>
    intro last h
    cases a with
    | exc hh =>
      have h' : firstOkAttempt rest = none := by
        simpa [firstOkAttempt, List.findSome?_cons] using h
      simpa [pageAttempts, List.foldl_cons, recordExc] using ih (.reqExc hh) h'
    | resp st its body =>
      have hst : ¬ st < 400 := by
        by_contra hlt
        simp [firstOkAttempt, List.findSome?_cons, hlt] at h
      have h' : firstOkAttempt rest = none := by
        simpa [firstOkAttempt, List.findSome?_cons, hst] using h
      have h400 : 400 ≤ st := Nat.not_lt.mp hst
      by_cases h41 : st == 400 || st == 401
      · simpa [pageAttempts, List.foldl_cons, recordExc, h400, h41] using ih last h'
      · simpa [pageAttempts, List.foldl_cons, recordExc, h400, h41] using
          ih (.statusErr st body) h'

/-- The empty string is a substring of every string. -/
theorem strHas_nil : ∀ (s : Str), strHas [] s = true := by
  intro s
  cases s with
  | nil => rfl
  | cons c rest => simp [strHas, List.isPrefixOf]

/-! Claim theorems. -/

/-- C1 (counterexample): the extractor does not collect a candidate from
every match — on `I have 2 cars and 7 cars` the single `search` call per
pattern sees only the first `2 cars` and the source answers `2`, while
collecting every match would give the maximum `7`. -/
theorem C1_counterexample :
    extract_car_count [carsCexMsg] = some ("2".data) ∧
      extract_car_count_every_match [carsCexMsg] = some ("7".data) ∧
      extract_car_count [carsCexMsg] ≠ extract_car_count_every_match [carsCexMsg] :=
  ⟨by decide, by decide, by decide⟩

/-- C1 (amended): for every list of message texts, the Car-Count Extractor
collects a candidate integer from the first match of each car pattern
within each message (one `search` per pattern per message, not every
match), and returns the maximum observed candidate as a string; texts
containing `has 2 cars` and `owns 5 cars` yield `5`, and it returns
`None` when no pattern matches in any text. -/
theorem C1_amended :
    (∀ texts, extract_car_count texts = (maxN? (carCandidates texts)).map natToStr)
    ∧ (∀ texts m, maxN? (carCandidates texts) = some m →
        m ∈ carCandidates texts ∧ ∀ c ∈ carCandidates texts, c ≤ m)
    ∧ (∀ texts, carCandidates texts = [] → extract_car_count texts = none)
    ∧ extract_car_count [carsHasMsg, carsOwnsMsg] = some ("5".data)
    ∧ extract_car_count [] = none := by
  refine ⟨?_, ?_, ?_, by decide, by decide⟩
  · intro texts
    unfold extract_car_count maxN?
    rw [carFold_eq]
  · intro texts m h
    exact maxN?_spec (carCandidates texts) m h
  · intro texts h
    unfold extract_car_count
    rw [carFold_eq, h]
    rfl

/-- C1 (witness): a text with no car mention has no candidates, and the
extractor returns `None` on it. -/
theorem C1_witness :
    carCandidates ["hello".data] = [] ∧ extract_car_count ["hello".data] = none :=
  ⟨by decide, C1_amended.2.2.1 ["hello".data] (by decide)⟩

/-- C2 (counterexample): on a message whose captured list is the
Oxford-comma text `Luigi's, Pancho's, and Luigi's`, the source answers
`Luigi's, Pancho's, and Luigi's` — the comma separator consumes the space
before `and`, so the final item keeps its `and ` prefix and is not a
case-insensitive duplicate — not the `Luigi's, Pancho's` the claim
expects. -/
theorem C2_counterexample :
    extract_favorite_restaurants [oxfordMsg] = some oxfordOut ∧
      extract_favorite_restaurants [oxfordMsg] ≠ some dedupOut :=
  ⟨by decide, by decide⟩

/-- C2 (amended): the Favorites Extractor uses only the first message
matching a favorites pattern, splits the captured list on commas and on
whitespace-surrounded `and`, strips punctuation and whitespace from each
item, de-duplicates case-insensitively preserving first-seen order, and
joins with comma-space; when `and` directly follows a comma the comma
separator consumes the space before it, so `Luigi's, Pancho's, and
Luigi's` yields `Luigi's, Pancho's, and Luigi's`, while the comma-free
`Luigi's and Pancho's and Luigi's` yields `Luigi's, Pancho's`. -/
theorem C2_amended :
    (∀ (texts : List Str) (i : Nat) (hi : i < texts.length) (w : Str),
      favFromText (texts.get ⟨i, hi⟩) = some w →
      (∀ j (hj : j < i), favFromText (texts.get ⟨j, Nat.lt_trans hj hi⟩) = none) →
      extract_favorite_restaurants texts = some w)
    ∧ (∀ texts, (∀ t ∈ texts, favFromText t = none) →
        extract_favorite_restaurants texts = none)
    ∧ (∀ l, ((favDedup [] l).map lowerStr).Nodup)
    ∧ (∀ l, (favDedup [] l).Sublist l)
    ∧ extract_favorite_restaurants [plainAndMsg] = some dedupOut
    ∧ extract_favorite_restaurants [oxfordMsg] = some oxfordOut := by
  refine ⟨?_, ?_, ?_, ?_, by decide, by decide⟩
  · intro texts i hi w hw hnone
    exact findSome?_first favFromText texts i hi w hw hnone
  · intro texts h
    exact List.findSome?_eq_none_iff.mpr h
  · intro l
    exact (favDedup_keys l []).2
  · intro l
    exact favDedup_sublist l []

/-- C2 (witness): the comma-free list is processed from the first (only)
message, with the duplicate `Luigi's` removed. -/
theorem C2_witness :
    extract_favorite_restaurants [plainAndMsg] = some dedupOut :=
  C2_amended.1 [plainAndMsg] 0 (by decide) dedupOut (by decide)
    (fun j hj => absurd hj (Nat.not_lt_zero j))

/-- C3: the Trip-Date Extractor tries the three pattern variants in order
within each message; a match whose captured city does not normalize-equal
the target city is rejected; the first message (in original order) whose
scan succeeds determines the returned `when` phrase; it returns `None`
when no message yields a match; and `trip to Paris on June 3` never
satisfies a query for `London` while it does satisfy one for `Paris`. -/
theorem C3_trip_extractor :
    (∀ (texts : List Str) (city : Str) (i : Nat) (hi : i < texts.length) (w : Str),
      tripFromText (normalize_city city) (texts.get ⟨i, hi⟩) = some w →
      (∀ j (hj : j < i),
        tripFromText (normalize_city city) (texts.get ⟨j, Nat.lt_trans hj hi⟩) = none) →
      extract_trip_when_to_city texts city = some w)
    ∧ (∀ texts city, (∀ t ∈ texts, tripFromText (normalize_city city) t = none) →
        extract_trip_when_to_city texts city = none)
    ∧ (∀ cityNorm t pat m, reSearch pat t = some m →
        (stripWs (groupStr t m 2)).isEmpty = false →
        normalize_city (stripWs (groupStr t m 2)) ≠ cityNorm →
        tripTryPat cityNorm t pat = none)
    ∧ extract_trip_when_to_city [parisMsg] ("London".data) = none
    ∧ extract_trip_when_to_city [parisMsg] ("Paris".data) = some ("June 3".data) := by
  refine ⟨?_, ?_, ?_, by decide, by decide⟩
  · intro texts city i hi w hw hnone
    exact findSome?_first (tripFromText (normalize_city city)) texts i hi w hw hnone
  · intro texts city h
    exact List.findSome?_eq_none_iff.mpr h
  · intro cityNorm t pat m hm h1 h2
    simp [tripTryPat, hm, h1, h2]

/-- C3 (witness): the Paris message is rejected for London in every
pattern, so the extractor returns `None`. -/
theorem C3_witness :
    extract_trip_when_to_city [parisMsg] ("London".data) = none :=
  C3_trip_extractor.2.1 [parisMsg] ("London".data) (by decide)

/-- C4: the User Message Filter returns exactly the texts of messages
whose normalized `user_name` contains the normalized query as a
substring, excluding messages whose text is empty or whitespace-only; the
queries `john smith`, `John   Smith` and `JOHN SMITH` all match the
stored name `John Smith` (a whitespace-only text being excluded), and
`John` matches `John Smith`. -/
theorem C4_user_filter :
    (∀ (msgs : List Message) (q : Str),
      messages_for_user msgs q =
        (msgs.filter (fun m => strHas (NAME_NORM q) (NAME_NORM (m.user_name.getD []))
          && !(stripWs (m.message.getD [])).isEmpty)).map (fun m => m.message.getD []))
    ∧ messages_for_user [johnMsg, blankMsg] ("john smith".data) = ["hello there".data]
    ∧ messages_for_user [johnMsg, blankMsg] ("John   Smith".data) = ["hello there".data]
    ∧ messages_for_user [johnMsg, blankMsg] ("JOHN SMITH".data) = ["hello there".data]
    ∧ messages_for_user [johnMsg, blankMsg] ("John".data) = ["hello there".data] := by
  refine ⟨?_, by decide, by decide, by decide, by decide⟩
  intro msgs q
  exact msgsForAux_eq (NAME_NORM q) msgs

/-- C5 (counterexample): a single question can satisfy two intent
patterns at once — `what are Al's favorite restaurants how many cars does
Al have` matches both the cars and the favorites question pattern. -/
theorem C5_counterexample :
    (reSearch CARS_Q_RE qOverlap).isSome = true ∧
      (reSearch FAV_Q_RE qOverlap).isSome = true :=
  ⟨by decide, by decide⟩

/-- C5 (amended): the three intent patterns are tried against the
question in the fixed priority order trip, cars, favorites, the first
match determining the intent; however a question can satisfy two intent
patterns simultaneously, in which case the higher-priority one wins, as
on the overlap question where the cars intent beats the also-matching
favorites pattern. -/
theorem C5_amended :
    (∀ q m, reSearch TRIP_Q_RE q = some m →
      intentOf q = .trip (cleanCap (groupStr q m 1)) (cleanCap (groupStr q m 2)))
    ∧ (∀ q m, reSearch TRIP_Q_RE q = none → reSearch CARS_Q_RE q = some m →
        intentOf q = .cars (cleanCap (groupStr q m 1)))
    ∧ (∀ q m, reSearch TRIP_Q_RE q = none → reSearch CARS_Q_RE q = none →
        reSearch FAV_Q_RE q = some m → intentOf q = .fav (cleanCap (groupStr q m 1)))
    ∧ (∀ q, reSearch TRIP_Q_RE q = none → reSearch CARS_Q_RE q = none →
        reSearch FAV_Q_RE q = none → intentOf q = .unknown)
    ∧ ((reSearch FAV_Q_RE qOverlap).isSome = true ∧ intentOf qOverlap = .cars ("Al".data)) := by
  refine ⟨?_, ?_, ?_, ?_, by decide, by decide⟩
  · intro q m h
    simp [intentOf, h]
  · intro q m h1 h2
    simp [intentOf, h1, h2]
  · intro q m h1 h2 h3
    simp [intentOf, h1, h2, h3]
  · intro q h1 h2 h3
    simp [intentOf, h1, h2, h3]

/-- C5 (witness): the weather question matches no intent pattern and is
classified unknown. -/
theorem C5_witness : intentOf weatherQ = .unknown :=
  C5_amended.2.2.2.1 weatherQ (by decide) (by decide) (by decide)

/-- C6: the answer boundary rejects exactly the empty or whitespace-only
question, with a 400 client error whose outcome does not depend on the
retrieval at all; for every non-empty question every retrieval outcome —
upstream status failure, connectivity failure, unexpected failure, or
success — produces an answer payload, never an error. -/
theorem C6_ask_boundary :
    (∀ question fetch, (stripWs question).isEmpty = true →
      ask question fetch = .clientError 400 ("Question must not be empty".data))
    ∧ (∀ question f1 f2, (stripWs question).isEmpty = true →
        ask question f1 = ask question f2)
    ∧ (∀ question fetch, (stripWs question).isEmpty = false →
        ∃ a, ask question fetch = .answer a) := by
  refine ⟨?_, ?_, ?_⟩
  · intro question fetch h
    simp [ask, h]
  · intro question f1 f2 h
    simp [ask, h]
  · intro question fetch h
    unfold ask
    simp only [h, Bool.false_eq_true, if_false]
    cases fetch with
    | failStatus code body => exact ⟨_, rfl⟩
    | failRequest err => exact ⟨_, rfl⟩
    | failOther => exact ⟨_, rfl⟩
    | ok msgs =>
      cases hI : intentOf (stripWs question) with
      | trip name city =>
        by_cases ht : (messages_for_user msgs name).isEmpty
        · exact ⟨noMsgsAnswer name, by simp [ht]⟩
        · exact ⟨orFallback (extract_trip_when_to_city (messages_for_user msgs name) city)
            (noTripAnswer city name), by simp [ht]⟩
      | cars name =>
        by_cases ht : (messages_for_user msgs name).isEmpty
        · exact ⟨noMsgsAnswer name, by simp [ht]⟩
        · exact ⟨orFallback (extract_car_count (messages_for_user msgs name))
            (noCarsAnswer name), by simp [ht]⟩
      | fav name =>
        by_cases ht : (messages_for_user msgs name).isEmpty
        · exact ⟨noMsgsAnswer name, by simp [ht]⟩
        · exact ⟨orFallback (extract_favorite_restaurants (messages_for_user msgs name))
            (noFavAnswer name), by simp [ht]⟩
      | unknown => exact ⟨fallbackAnswer, rfl⟩

/-- C6 (witness): the empty question is rejected with the 400 signal. -/
theorem C6_witness :
    ask [] FetchOutcome.failOther = .clientError 400 ("Question must not be empty".data) :=
  C6_ask_boundary.1 [] FetchOutcome.failOther rfl

/-- C7 (counterexample): a 500 response is not terminal — the loop
records it, tries the next profile, and returns that attempt's success
instead of raising. -/
theorem C7_counterexample :
    fetch_messages_page [.resp 500 [] ("oops".data), .resp 200 [noNameMsg] []]
        = .success [noNameMsg] ∧
      fetch_messages_page [.resp 500 [] ("oops".data), .resp 200 [noNameMsg] []]
        ≠ .raisedStatus 500 ("oops".data) :=
  ⟨by decide, by decide⟩

/-- C7 (amended): header profiles and schemes are tried in order; a 400
or 401 response moves on without recording an error, and any other
failure status raises an `HTTPStatusError` that the attempt's blanket
handler records before moving on to the remaining combinations — the
first below-400 response wins regardless of earlier failures, and only
when every combination fails is the recorded (or a generic) error
raised. -/
theorem C7_amended :
    (∀ attempts items, firstOkAttempt attempts = some items →
      fetch_messages_page attempts = .success items)
    ∧ (∀ attempts, firstOkAttempt attempts = none →
        fetch_messages_page attempts = raisedOf (attempts.foldl recordExc .noExc))
    ∧ fetch_messages_page [.resp 500 [] ("oops".data), .resp 400 [] []]
        = .raisedStatus 500 ("oops".data) := by
  refine ⟨?_, ?_, by decide⟩
  · intro attempts items h
    exact pageAttempts_firstOk attempts .noExc items h
  · intro attempts h
    exact pageAttempts_allFail attempts .noExc h

/-- C7 (witness): a first-attempt success is returned. -/
theorem C7_witness :
    fetch_messages_page [Att.resp 200 [noNameMsg] []] = .success [noNameMsg] :=
  C7_amended.1 [Att.resp 200 [noNameMsg] []] [noNameMsg] (by decide)

/-- C8: the Collection Fetcher performs at most `maxPages` page fetches
regardless of upstream behavior, and each iteration checks its conditions
in order — an empty batch stops without accumulating, a batch shorter
than the page size is accumulated before stopping, and otherwise the loop
continues at the next offset until the hard page ceiling. -/
theorem C8_fetch_all :
    (∀ (oracle : Nat → List Message) (ps mp : Nat),
      (fetch_all_messages oracle ps mp).fetches ≤ mp)
    ∧ (∀ (oracle : Nat → List Message) (ps n skip : Nat) (acc : List Message),
        (oracle skip).isEmpty = true →
        fetchAllAux oracle ps (n + 1) skip acc = ⟨acc, 1⟩)
    ∧ (∀ (oracle : Nat → List Message) (ps n skip : Nat) (acc : List Message),
        (oracle skip).isEmpty = false → (oracle skip).length < ps →
        fetchAllAux oracle ps (n + 1) skip acc = ⟨acc ++ oracle skip, 1⟩)
    ∧ (∀ (oracle : Nat → List Message) (ps n skip : Nat) (acc : List Message),
        (oracle skip).isEmpty = false → ¬ (oracle skip).length < ps →
        fetchAllAux oracle ps (n + 1) skip acc =
          ⟨(fetchAllAux oracle ps n (skip + ps) (acc ++ oracle skip)).items,
            (fetchAllAux oracle ps n (skip + ps) (acc ++ oracle skip)).fetches + 1⟩) := by
  refine ⟨?_, ?_, ?_, ?_⟩
  · intro oracle ps mp
    exact fetchAllAux_fetches_le oracle ps mp 0 []
  · intro oracle ps n skip acc h
    simp [fetchAllAux, h]
  · intro oracle ps n skip acc h1 h2
    simp [fetchAllAux, h1, h2]
  · intro oracle ps n skip acc h1 h2
    simp [fetchAllAux, h1, h2]

/-- C8 (witness): an upstream that always returns an empty page stops
after a single fetch, well inside the ceiling. -/
theorem C8_witness :
    fetchAllAux (fun _ => ([] : List Message)) 50 (19 + 1) 0 [] = ⟨[], 1⟩ :=
  C8_fetch_all.2.1 (fun _ => []) 50 19 0 [] rfl

/-- C9: for every non-empty question matching none of the three intent
patterns, the answer is the fixed fallback guidance string and does not
depend on which messages were fetched. -/
theorem C9_fallback_independence :
    ∀ (q : Str) (m1 m2 : List Message),
      (stripWs q).isEmpty = false →
      reSearch TRIP_Q_RE (stripWs q) = none →
      reSearch CARS_Q_RE (stripWs q) = none →
      reSearch FAV_Q_RE (stripWs q) = none →
      ask q (.ok m1) = .answer fallbackAnswer ∧ ask q (.ok m1) = ask q (.ok m2) := by
  intro q m1 m2 h h1 h2 h3
  have hI : intentOf (stripWs q) = .unknown := by
    simp [intentOf, h1, h2, h3]
  constructor
  · simp [ask, h, hI]
  · simp [ask, h, hI]

/-- C9 (witness): the weather question yields the fallback string on an
empty and on a non-empty message set alike. -/
theorem C9_witness :
    ask weatherQ (.ok []) = .answer fallbackAnswer ∧
      ask weatherQ (.ok []) = ask weatherQ (.ok [johnMsg]) :=
  C9_fallback_independence weatherQ [] [johnMsg] (by decide) (by decide) (by decide)
    (by decide)

/-- C10: a name query that normalizes to the empty string makes the
filter return the texts of every message with non-empty text — the empty
string is a substring of every normalized name, including missing or
empty ones — and such a query is reachable from the public interface:
the captured name of `How many cars does ? have` strips to the empty
string. -/
theorem C10_empty_query :
    (∀ (msgs : List Message) (q : Str), NAME_NORM q = [] →
      messages_for_user msgs q =
        (msgs.filter (fun m => !(stripWs (m.message.getD [])).isEmpty)).map
          (fun m => m.message.getD []))
    ∧ (∀ s, strHas [] s = true)
    ∧ intentOf (stripWs qMark) = .cars [] := by
  refine ⟨?_, strHas_nil, by decide⟩
  intro msgs q h
  unfold messages_for_user
  rw [h, msgsForAux_eq]
  have hfil : (fun m => strHas [] (NAME_NORM (Message.user_name m |>.getD []))
      && !(stripWs (Message.message m |>.getD [])).isEmpty)
      = (fun m => !(stripWs (Message.message m |>.getD [])).isEmpty) := by
    funext m
    rw [strHas_nil, Bool.true_and]
  rw [hfil]

/-- C10 (witness): a whitespace-only query normalizes to the empty string
and returns every message with non-blank text. -/
theorem C10_witness :
    messages_for_user [johnMsg, blankMsg, noNameMsg] (" ".data) =
      (([johnMsg, blankMsg, noNameMsg].filter
        (fun m => !(stripWs (m.message.getD [])).isEmpty)).map
          (fun m => m.message.getD [])) :=
  C10_empty_query.1 [johnMsg, blankMsg, noNameMsg] (" ".data) rfl

end MemberQA
